import Mathlib

/-!
Shallow embedding of `prysm/_phase.py` (class `OpticalPhase`) and proofs about
its unit-conversion subsystem.

Modelling conventions:
* Python floats are modelled as `ℚ` (exact arithmetic; "within floating
  tolerance" becomes exact equality).
* numpy arrays are lists (`List ℚ` for axes, `List (List ℚ)` for the phase
  grid); elementwise division is `List.map`.
* Python dictionaries are association lists looked up front-to-back
  (`dlookup`); a failed `d[k]` lookup is the `keyError` outcome.
* `None` is `Option.none`; arithmetic on `None` (Python `TypeError`) is the
  `typeError` outcome.  A conversion-factor lambda that ignores its argument
  (`lambda x: 1e-3`) is total; one that computes with it (`lambda x: 1e3 * x`)
  is modelled with `Option.map` so that it propagates `none`, which the
  caller turns into `typeError` exactly where Python would raise.
* `str.lower()` / `str.upper()` are modelled on the characters that actually
  occur in the unit registry: ASCII letters plus `Å`/`å` (U+00C5 / U+00E5);
  `μ` (U+03BC) and `λ` (U+03BB) are already lowercase and are fixed points.
-/

namespace Prysm

/-- Python `str.lower()` on a single character, restricted to the characters
relevant to the unit registry: ASCII `A`-`Z` and `Å` map to their lowercase
forms, everything else is fixed. -/
def pyLowerChar (c : Char) : Char :=
  if c = 'Å' then 'å'
  else if 'A' ≤ c ∧ c ≤ 'Z' then Char.ofNat (c.toNat + 32)
  else c

/-- Python `str.upper()` on a single character, restricted likewise. -/
def pyUpperChar (c : Char) : Char :=
  if c = 'å' then 'Å'
  else if 'a' ≤ c ∧ c ≤ 'z' then Char.ofNat (c.toNat - 32)
  else c

/-- Python `str.lower()`. -/
def pyLower (s : String) : String := ⟨s.data.map pyLowerChar⟩

/-- Python `str.upper()`. -/
def pyUpper (s : String) : String := ⟨s.data.map pyUpperChar⟩

/-- Python dictionary lookup `d[k]` over an association list (insertion
order, no duplicate keys in the tables below). -/
def dlookup {α : Type} : List (String × α) → String → Option α
  | [], _ => none
  | (k, v) :: rest, key => if key = k then some v else dlookup rest key

/-- `OpticalPhase.units`: the alias table, mapping accepted unit spellings to
canonical unit codes, exactly as written in the source. -/
def units : List (String × String) :=
  [("m", "m"),
   ("meter", "m"),
   ("mm", "mm"),
   ("millimeter", "mm"),
   ("μm", "μm"),
   ("um", "μm"),
   ("micron", "μm"),
   ("micrometer", "μm"),
   ("nm", "nm"),
   ("nanometer", "nm"),
   ("Å", "Å"),
   ("aa", "Å"),
   ("angstrom", "Å"),
   ("λ", "λ"),
   ("waves", "λ"),
   ("lambda", "λ"),
   ("px", "px"),
   ("pixel", "px")]

/-- The keys of the alias table, in order (`set(self.units.keys())` up to
collection type; the error message enumerates these). -/
def unitKeys : List String := units.map Prod.fst

/-- The 7 canonical unit codes. -/
def canonical : List String := ["m", "mm", "μm", "nm", "Å", "λ", "px"]

/-- The canonical codes other than the pixel code. -/
def nonPixel : List String := ["m", "mm", "μm", "nm", "Å", "λ"]

/-- The ordered pairs whose conversion-table entry does not involve `λ`
(the 31 keys of `unit_changes` with no `λ` in them). -/
def noLambdaPairs : List (String × String) :=
  [("m", "m"), ("m", "mm"), ("m", "μm"), ("m", "nm"), ("m", "Å"),
   ("mm", "mm"), ("mm", "m"), ("mm", "μm"), ("mm", "nm"), ("mm", "Å"),
   ("μm", "μm"), ("μm", "m"), ("μm", "mm"), ("μm", "nm"), ("μm", "Å"),
   ("nm", "nm"), ("nm", "m"), ("nm", "mm"), ("nm", "μm"), ("nm", "Å"),
   ("Å", "Å"), ("Å", "m"), ("Å", "mm"), ("Å", "μm"), ("Å", "nm"),
   ("px", "px"), ("px", "m"), ("px", "mm"), ("px", "μm"), ("px", "nm"),
   ("px", "Å")]

/-- `OpticalPhase.unit_scales`: linear scale of each physical code relative
to meters. -/
def unit_scales : List (String × ℚ) :=
  [("m", 1), ("mm", 1e-3), ("μm", 1e-6), ("nm", 1e-9), ("Å", 1e-10)]

/-- `OpticalPhase.unit_changes`: the pairwise conversion-factor table, one
entry per key present in the source (43 entries).  Each value models the
corresponding `lambda x: ...` applied to the (possibly absent) wavelength. -/
def unit_changes : List (String × (Option ℚ → Option ℚ)) :=
  [("m_m", fun _ => some 1),
   ("m_mm", fun _ => some 1e-3),
   ("m_μm", fun _ => some 1e-6),
   ("m_nm", fun _ => some 1e-9),
   ("m_Å", fun _ => some 1e-10),
   ("m_λ", fun w => w.map (fun x => 1e-6 * x)),
   ("mm_mm", fun _ => some 1),
   ("mm_m", fun _ => some 1e3),
   ("mm_μm", fun _ => some 1e-3),
   ("mm_nm", fun _ => some 1e-6),
   ("mm_Å", fun _ => some 1e-7),
   ("mm_λ", fun w => w.map (fun x => 1e-3 * x)),
   ("μm_μm", fun _ => some 1),
   ("μm_m", fun _ => some 1e6),
   ("μm_mm", fun _ => some 1e3),
   ("μm_nm", fun _ => some 1e-3),
   ("μm_Å", fun _ => some 1e-4),
   ("μm_λ", fun w => w.map (fun x => 1 * x)),
   ("nm_nm", fun _ => some 1),
   ("nm_m", fun _ => some 1e9),
   ("nm_mm", fun _ => some 1e6),
   ("nm_μm", fun _ => some 1e3),
   ("nm_Å", fun _ => some 1e-1),
   ("nm_λ", fun w => w.map (fun x => 1e3 * x)),
   ("Å_Å", fun _ => some 1),
   ("Å_m", fun _ => some 1e10),
   ("Å_mm", fun _ => some 1e7),
   ("Å_μm", fun _ => some 1e4),
   ("Å_nm", fun _ => some 10),
   ("Å_λ", fun w => w.map (fun x => 1e4 * x)),
   ("λ_λ", fun _ => some 1),
   ("λ_m", fun w => w.map (fun x => 1e6 / x)),
   ("λ_mm", fun w => w.map (fun x => 1e3 / x)),
   ("λ_μm", fun w => w),
   ("λ_nm", fun w => w.map (fun x => 1e-3 / x)),
   ("λ_Å", fun w => w.map (fun x => 1e-4 / x)),
   ("px_px", fun _ => some 1),
   ("px_m", fun _ => some 1),
   ("px_mm", fun _ => some 1),
   ("px_μm", fun _ => some 1),
   ("px_nm", fun _ => some 1),
   ("px_Å", fun _ => some 1),
   ("px_λ", fun _ => some 1)]

/-- Conversion factor between two codes: look up `"<a>_<b>"` in
`unit_changes` and apply the entry to the wavelength.  `none` covers both a
missing table entry and an entry whose arithmetic hit a missing wavelength;
the two are distinguished where it matters via `dlookup` directly. -/
def factor (a b : String) (w : Option ℚ) : Option ℚ :=
  match dlookup unit_changes (a ++ "_" ++ b) with
  | some f => f w
  | none => none

/-- Errors surfaced by the Python code: `ValueError` from the unit setters
(carrying the offending spelling and the valid alias list that the message
enumerates), `KeyError` from a raw dictionary lookup, and `TypeError` from
arithmetic on `None`. -/
inductive UnitError where
  | invalidUnit (unit : String) (validUnits : List String)
  | keyError (key : String)
  | typeError
deriving DecidableEq

/-- State of an `OpticalPhase` instance.  `x`, `y`, `phase` (= `data`), the
three labels, `xyunit` and `zunit` are the base-class (`BasicData`) storage;
`wavelength` is set by `__init__`; `phase_unit_backing` and
`spatial_unit_backing` model the instance attributes `_phase_unit` and
`_spatial_unit`, absent (`none`) until the corresponding setter first runs. -/
structure OpticalPhase where
  x : List ℚ
  y : List ℚ
  phase : List (List ℚ)
  xlabel : String
  ylabel : String
  zlabel : String
  xyunit : String
  zunit : String
  wavelength : Option ℚ
  phase_unit_backing : Option String
  spatial_unit_backing : Option String

/-- `OpticalPhase.__init__`.  Modelled from the spec: the base class
`BasicData` is not under `src/`; per the spec's Measurement Surface it
stores `x`, `y`, `data`, the labels, `xyunit` and `zunit` verbatim.
`__init__` forwards `xyunit := spatial_unit` and `zunit := phase_unit`
(no normalization), then assigns `wavelength`. -/
def OpticalPhase.init (x y : List ℚ) (phase : List (List ℚ))
    (xlabel ylabel zlabel : String) (spatial_unit phase_unit : String)
    (wavelength : Option ℚ) : OpticalPhase :=
  { x := x, y := y, phase := phase,
    xlabel := xlabel, ylabel := ylabel, zlabel := zlabel,
    xyunit := spatial_unit, zunit := phase_unit,
    wavelength := wavelength,
    phase_unit_backing := none, spatial_unit_backing := none }

/-- `OpticalPhase.phase_unit` getter: `return self.xyunit` (as written in
the source — note this is the base-class field holding the construction-time
spatial unit). -/
def OpticalPhase.phase_unit (s : OpticalPhase) : String := s.xyunit

/-- `OpticalPhase.spatial_unit` getter: `return self.zunit` (as written in
the source — the base-class field holding the construction-time phase
unit). -/
def OpticalPhase.spatial_unit (s : OpticalPhase) : String := s.zunit

/-- `phase_unit` setter, as the value it assigns to `self._phase_unit` (or
the `ValueError` it raises): lower-case the input; if the result is `å`,
store its upper-case form without consulting the registry; otherwise look
the lowered spelling up in `units` and store the canonical code. -/
def phase_unit_assign (unit : String) : Except UnitError String :=
  if pyLower unit = "å" then .ok (pyUpper (pyLower unit))
  else
    match dlookup units (pyLower unit) with
    | some c => .ok c
    | none => .error (.invalidUnit (pyLower unit) unitKeys)

/-- `spatial_unit` setter, as the value it assigns to `self._spatial_unit`
(or the `ValueError` it raises): lower-case the input and look it up in
`units`; no special case. -/
def spatial_unit_assign (unit : String) : Except UnitError String :=
  match dlookup units (pyLower unit) with
  | some c => .ok c
  | none => .error (.invalidUnit (pyLower unit) unitKeys)

/-- Assignment `s.phase_unit = unit` as a state transformer. -/
def setPhaseUnit (s : OpticalPhase) (unit : String) :
    Except UnitError OpticalPhase :=
  match phase_unit_assign unit with
  | .ok v => .ok { s with phase_unit_backing := some v }
  | .error e => .error e

/-- Assignment `s.spatial_unit = unit` as a state transformer. -/
def setSpatialUnit (s : OpticalPhase) (unit : String) :
    Except UnitError OpticalPhase :=
  match spatial_unit_assign unit with
  | .ok v => .ok { s with spatial_unit_backing := some v }
  | .error e => .error e

/-- `OpticalPhase.diameter_x`: `self.x[-1] - self.x[0]`; `none` models the
`IndexError` on an empty axis. -/
def OpticalPhase.diameter_x (s : OpticalPhase) : Option ℚ :=
  match s.x.getLast?, s.x.head? with
  | some l, some h => some (l - h)
  | _, _ => none

/-- `OpticalPhase.diameter_y`: `self.y[-1] - self.x[0]` — exactly as in the
source, which subtracts the first element of `x`, not of `y`. -/
def OpticalPhase.diameter_y (s : OpticalPhase) : Option ℚ :=
  match s.y.getLast?, s.x.head? with
  | some l, some h => some (l - h)
  | _, _ => none

/-- `OpticalPhase.diameter`: `max((self.diameter_x, self.diameter_y))`. -/
def OpticalPhase.diameter (s : OpticalPhase) : Option ℚ :=
  match s.diameter_x, s.diameter_y with
  | some a, some b => some (max a b)
  | _, _ => none

/-- `OpticalPhase.semidiameter`: `self.diameter / 2`. -/
def OpticalPhase.semidiameter (s : OpticalPhase) : Option ℚ :=
  s.diameter.map (fun d => d / 2)

/-- Shape of the phase grid, numpy-style `(rows, cols)`.  Modelled from the
spec: the base class exposes a shape query over `data`. -/
def OpticalPhase.shape (s : OpticalPhase) : ℕ × ℕ :=
  (s.phase.length, (s.phase.head?.getD []).length)

/-- `OpticalPhase.change_phase_unit(to, inplace)`.  Mirrors the source:
`fctr = self.unit_changes['_'.join([self.phase_unit, self.units[to]])](self.wavelength)`,
`new_phase = self.phase / fctr`; with `inplace` the instance's `phase` and
`_phase_unit` are replaced and the instance returned (`Sum.inl`), otherwise
only the new array is returned (`Sum.inr`). -/
def OpticalPhase.change_phase_unit (s : OpticalPhase) (tgt : String)
    (inplace : Bool) : Except UnitError (OpticalPhase ⊕ List (List ℚ)) :=
  match dlookup units tgt with
  | none => .error (.keyError tgt)
  | some toC =>
    match dlookup unit_changes (s.phase_unit ++ "_" ++ toC) with
    | none => .error (.keyError (s.phase_unit ++ "_" ++ toC))
    | some f =>
      match f s.wavelength with
      | none => .error .typeError
      | some fctr =>
        let new_phase := s.phase.map (fun row => row.map (fun v => v / fctr))
        if inplace then
          match phase_unit_assign tgt with
          | .ok pu =>
            .ok (.inl { s with phase := new_phase,
                               phase_unit_backing := some pu })
          | .error e => .error e
        else .ok (.inr new_phase)

/-- Body of `change_spatial_unit` computing `(new_ux, new_uy)`: if
`to.lower() != 'px'`, compute the factor from the current `spatial_unit`
getter value and divide both axes by it; otherwise regenerate the axes as
`arange(sx)` / `arange(sy)` from the grid shape `(sy, sx)` (the
`config.precision` dtype argument has no rational-arithmetic content). -/
def OpticalPhase.spatial_axes (s : OpticalPhase) (tgt : String) :
    Except UnitError (List ℚ × List ℚ) :=
  if pyLower tgt ≠ "px" then
    match dlookup units tgt with
    | none => .error (.keyError tgt)
    | some toC =>
      match dlookup unit_changes (s.spatial_unit ++ "_" ++ toC) with
      | none => .error (.keyError (s.spatial_unit ++ "_" ++ toC))
      | some f =>
        match f s.wavelength with
        | none => .error .typeError
        | some fctr =>
          .ok (s.x.map (fun v => v / fctr), s.y.map (fun v => v / fctr))
  else
    .ok ((List.range s.shape.2).map (fun n => (n : ℚ)),
         (List.range s.shape.1).map (fun n => (n : ℚ)))

/-- `OpticalPhase.change_spatial_unit(to, inplace)`.  Mirrors the source:
computes the new axes (`spatial_axes`); with `inplace` the instance's `x`,
`y` and `_spatial_unit` are replaced and the instance returned (`Sum.inl`),
otherwise only the pair of new axes is returned (`Sum.inr`). -/
def OpticalPhase.change_spatial_unit (s : OpticalPhase) (tgt : String)
    (inplace : Bool) :
    Except UnitError (OpticalPhase ⊕ (List ℚ × List ℚ)) :=
  match s.spatial_axes tgt with
  | .error e => .error e
  | .ok (nx, ny) =>
    if inplace then
      match spatial_unit_assign tgt with
      | .ok su =>
        .ok (.inl { s with x := nx, y := ny,
                           spatial_unit_backing := some su })
      | .error e => .error e
    else .ok (.inr (nx, ny))

/-! ## General helper lemmas -/

/-- A successful association-list lookup returns one of the stored values. -/
theorem dlookup_mem_values {α : Type} (l : List (String × α)) (k : String)
    (v : α) (h : dlookup l k = some v) : v ∈ l.map Prod.snd := by
  induction l with
  | nil => simp [dlookup] at h
  | cons hd tl ih =>
    obtain ⟨a, c⟩ := hd
    rw [dlookup] at h
    by_cases hk : k = a
    · rw [if_pos hk] at h
      injection h with h2
      simp [← h2]
    · rw [if_neg hk] at h
      simp [ih h]

/-- Every value stored in the alias table is a canonical code. -/
theorem units_values_canonical : ∀ v ∈ units.map Prod.snd, v ∈ canonical := by
  decide

/-- Each non-pixel canonical code is its own alias, is its own canonical
form under the `phase_unit` setter, and has a self-conversion factor of 1. -/
theorem nonPixel_self_facts (u : String) (hu : u ∈ nonPixel) :
    dlookup units u = some u ∧ phase_unit_assign u = .ok u ∧
    ∀ w : Option ℚ, factor u u w = some 1 := by
  fin_cases hu <;> exact ⟨rfl, rfl, fun _ => rfl⟩

/-- Characterization of a successful in-place `change_phase_unit` call: the
result is the input state with exactly `phase` divided elementwise by some
factor and `_phase_unit` overwritten by the setter's normalized value. -/
theorem change_phase_unit_ok_inl {s : OpticalPhase} {u : String} {b : Bool}
    {s' : OpticalPhase}
    (h : OpticalPhase.change_phase_unit s u b = .ok (.inl s')) :
    ∃ fctr pu, phase_unit_assign u = .ok pu ∧
      s' = { s with phase := s.phase.map (fun r => r.map (fun v => v / fctr)),
                    phase_unit_backing := some pu } := by
  unfold OpticalPhase.change_phase_unit at h
  split at h
  next => simp at h
  next toC h1 =>
    split at h
    next => simp at h
    next f h2 =>
      split at h
      next => simp at h
      next fctr h3 =>
        split at h
        next hb =>
          split at h
          next pu hpu =>
            exact ⟨fctr, pu, hpu, by simpa using h.symm⟩
          next e he => simp at h
        next hb => simp at h

/-- A `change_phase_unit` call with `inplace = false` can only return the
bare array, never the instance. -/
theorem change_phase_unit_false_inr {s : OpticalPhase} {u : String}
    {r : OpticalPhase ⊕ List (List ℚ)}
    (h : OpticalPhase.change_phase_unit s u false = .ok r) :
    ∃ p, r = .inr p := by
  unfold OpticalPhase.change_phase_unit at h
  split at h
  next => simp at h
  next toC h1 =>
    split at h
    next => simp at h
    next f h2 =>
      split at h
      next => simp at h
      next fctr h3 =>
        simp only [Bool.false_eq_true, if_false] at h
        exact ⟨_, by simpa using h.symm⟩

/-- Characterization of a successful in-place `change_spatial_unit` call. -/
theorem change_spatial_unit_ok_inl {s : OpticalPhase} {u : String} {b : Bool}
    {s' : OpticalPhase}
    (h : OpticalPhase.change_spatial_unit s u b = .ok (.inl s')) :
    ∃ nx ny su, s.spatial_axes u = .ok (nx, ny) ∧
      spatial_unit_assign u = .ok su ∧
      s' = { s with x := nx, y := ny, spatial_unit_backing := some su } := by
  unfold OpticalPhase.change_spatial_unit at h
  split at h
  next => simp at h
  next nx ny hax =>
    split at h
    next hb =>
      split at h
      next su hsu => exact ⟨nx, ny, su, hax, hsu, by simpa using h.symm⟩
      next e he => simp at h
    next hb => simp at h

/-- A `change_spatial_unit` call with `inplace = false` can only return the
pair of new axes, never the instance. -/
theorem change_spatial_unit_false_inr {s : OpticalPhase} {u : String}
    {r : OpticalPhase ⊕ (List ℚ × List ℚ)}
    (h : OpticalPhase.change_spatial_unit s u false = .ok r) :
    ∃ p, r = .inr p := by
  unfold OpticalPhase.change_spatial_unit at h
  split at h
  next => simp at h
  next nx ny hax =>
    simp only [Bool.false_eq_true, if_false] at h
    exact ⟨_, by simpa using h.symm⟩

/-! ## Claim theorems -/

/-- C1: for an entity whose readable `phase_unit` is `nm`, with
`phase = [[1.0]]` and `wavelength = 0.6328`, calling
`change_phase_unit('waves', inplace=False)` returns
`[[1.0 / (1e3 * 0.6328)]]`: the factor used is the `nm_λ` entry of the
conversion table evaluated at the stored wavelength, and the phase is
divided by it. -/
theorem C1_nm_to_waves (s : OpticalPhase)
    (hp : s.phase = [[1]]) (hu : s.phase_unit = "nm")
    (hw : s.wavelength = some (6328 / 10000)) :
    s.change_phase_unit "waves" false =
      .ok (.inr [[1 / (1e3 * (6328 / 10000))]]) := by
  simp [OpticalPhase.change_phase_unit, units, unit_changes, dlookup, hu, hp,
        hw]

/-- Witness for C1 at a concrete state. -/
theorem C1_witness :
    (OpticalPhase.init [0] [0] [[1]] "x" "y" "z" "nm" "nm"
        (some (6328 / 10000))).change_phase_unit "waves" false =
      .ok (.inr [[1 / (1e3 * (6328 / 10000))]]) :=
  C1_nm_to_waves _ rfl rfl rfl

/-- C9: `diameter_x` equals `x[-1] - x[0]`; `diameter_y` equals
`y[-1] - x[0]` (mixing axes, as the source does); `diameter` equals
`max(diameter_x, diameter_y)`; `semidiameter` equals `diameter / 2` — for
every entity with non-empty `x` and `y` axes. -/
theorem C9_diameters (s : OpticalPhase) (hx : s.x ≠ []) (hy : s.y ≠ []) :
    s.diameter_x = some (s.x.getLast hx - s.x.head hx) ∧
    s.diameter_y = some (s.y.getLast hy - s.x.head hx) ∧
    s.diameter = some (max (s.x.getLast hx - s.x.head hx)
                           (s.y.getLast hy - s.x.head hx)) ∧
    s.semidiameter = some (max (s.x.getLast hx - s.x.head hx)
                               (s.y.getLast hy - s.x.head hx) / 2) := by
  have h1 : s.x.getLast? = some (s.x.getLast hx) :=
    List.getLast?_eq_getLast _ hx
  have h2 : s.x.head? = some (s.x.head hx) := List.head?_eq_head hx
  have h3 : s.y.getLast? = some (s.y.getLast hy) :=
    List.getLast?_eq_getLast _ hy
  refine ⟨?_, ?_, ?_, ?_⟩ <;>
    simp [OpticalPhase.diameter_x, OpticalPhase.diameter_y,
          OpticalPhase.diameter, OpticalPhase.semidiameter, h1, h2, h3]

/-- Witness for C9 at a concrete state. -/
theorem C9_witness :
    (⟨[0, 2], [0, 3], [[1]], "x", "y", "z", "mm", "nm", none, none, none⟩ :
        OpticalPhase).diameter_x = some 2 ∧
    (⟨[0, 2], [0, 3], [[1]], "x", "y", "z", "mm", "nm", none, none, none⟩ :
        OpticalPhase).diameter_y = some 3 ∧
    (⟨[0, 2], [0, 3], [[1]], "x", "y", "z", "mm", "nm", none, none, none⟩ :
        OpticalPhase).diameter = some 3 ∧
    (⟨[0, 2], [0, 3], [[1]], "x", "y", "z", "mm", "nm", none, none, none⟩ :
        OpticalPhase).semidiameter = some (3 / 2) := by
  obtain ⟨h1, h2, h3, h4⟩ :=
    C9_diameters
      (⟨[0, 2], [0, 3], [[1]], "x", "y", "z", "mm", "nm", none, none, none⟩ :
        OpticalPhase) (by simp) (by simp)
  refine ⟨?_, ?_, ?_, ?_⟩
  · rw [h1]; norm_num [List.getLast, List.head]
  · rw [h2]; norm_num [List.getLast, List.head]
  · rw [h3]; norm_num [List.getLast, List.head]
  · rw [h4]; norm_num [List.getLast, List.head]

/-- C10: the `phase_unit` getter returns the stored `xyunit` field
(initialized from the `spatial_unit` constructor argument) and the
`spatial_unit` getter returns the stored `zunit` field (initialized from
the `phase_unit` argument); the two setters write only the otherwise-unread
backing fields `_phase_unit` / `_spatial_unit`, so no setter call, nor an
in-place `change_phase_unit` / `change_spatial_unit`, ever changes the
value returned by either getter. -/
theorem C10_crossed_getters :
    (∀ x y p xl yl zl su pu w,
       (OpticalPhase.init x y p xl yl zl su pu w).xyunit = su ∧
       (OpticalPhase.init x y p xl yl zl su pu w).phase_unit = su ∧
       (OpticalPhase.init x y p xl yl zl su pu w).zunit = pu ∧
       (OpticalPhase.init x y p xl yl zl su pu w).spatial_unit = pu) ∧
    (∀ s u s', setPhaseUnit s u = .ok s' →
       (∃ v, s' = { s with phase_unit_backing := v }) ∧
       s'.phase_unit = s.phase_unit ∧ s'.spatial_unit = s.spatial_unit) ∧
    (∀ s u s', setSpatialUnit s u = .ok s' →
       (∃ v, s' = { s with spatial_unit_backing := v }) ∧
       s'.phase_unit = s.phase_unit ∧ s'.spatial_unit = s.spatial_unit) ∧
    (∀ s u b s', OpticalPhase.change_phase_unit s u b = .ok (.inl s') →
       s'.phase_unit = s.phase_unit ∧ s'.spatial_unit = s.spatial_unit) ∧
    (∀ s u b s', OpticalPhase.change_spatial_unit s u b = .ok (.inl s') →
       s'.phase_unit = s.phase_unit ∧ s'.spatial_unit = s.spatial_unit) := by
  refine ⟨fun x y p xl yl zl su pu w => ⟨rfl, rfl, rfl, rfl⟩, ?_, ?_, ?_, ?_⟩
  · intro s u s' h
    unfold setPhaseUnit at h
    split at h
    next v hv =>
      obtain rfl : ({ s with phase_unit_backing := some v } :
          OpticalPhase) = s' := by simpa using h
      exact ⟨⟨some v, rfl⟩, rfl, rfl⟩
    next e he => simp at h
  · intro s u s' h
    unfold setSpatialUnit at h
    split at h
    next v hv =>
      obtain rfl : ({ s with spatial_unit_backing := some v } :
          OpticalPhase) = s' := by simpa using h
      exact ⟨⟨some v, rfl⟩, rfl, rfl⟩
    next e he => simp at h
  · intro s u b s' h
    obtain ⟨fctr, pu, hpu, rfl⟩ := change_phase_unit_ok_inl h
    exact ⟨rfl, rfl⟩
  · intro s u b s' h
    obtain ⟨nx, ny, su, hax, hsu, rfl⟩ := change_spatial_unit_ok_inl h
    exact ⟨rfl, rfl⟩

/-- Witness for C10 at a concrete setter call. -/
theorem C10_witness :
    (∃ v, (⟨[0], [0], [[1]], "x", "y", "z", "mm", "nm", none, some "μm",
            none⟩ : OpticalPhase) =
      { (⟨[0], [0], [[1]], "x", "y", "z", "mm", "nm", none, none, none⟩ :
          OpticalPhase) with phase_unit_backing := v }) ∧
    (⟨[0], [0], [[1]], "x", "y", "z", "mm", "nm", none, some "μm", none⟩ :
        OpticalPhase).phase_unit =
      (⟨[0], [0], [[1]], "x", "y", "z", "mm", "nm", none, none, none⟩ :
        OpticalPhase).phase_unit ∧
    (⟨[0], [0], [[1]], "x", "y", "z", "mm", "nm", none, some "μm", none⟩ :
        OpticalPhase).spatial_unit =
      (⟨[0], [0], [[1]], "x", "y", "z", "mm", "nm", none, none, none⟩ :
        OpticalPhase).spatial_unit :=
  C10_crossed_getters.2.1 _ "micron" _ rfl

/-- C7: `change_phase_unit` with `inplace=True` replaces exactly the phase
array and the field written by the `phase_unit` setter and returns the
instance itself (`Sum.inl`); with `inplace=False` it returns only the
computed array (`Sum.inr`, no modified instance); `change_spatial_unit`
mirrors this for `x`, `y` and the field written by the `spatial_unit`
setter. -/
theorem C7_inplace_semantics :
    (∀ s u s', OpticalPhase.change_phase_unit s u true = .ok (.inl s') →
       ∃ fctr pu, phase_unit_assign u = .ok pu ∧
         s'.phase = s.phase.map (fun r => r.map (fun v => v / fctr)) ∧
         s'.phase_unit_backing = some pu ∧
         s'.x = s.x ∧ s'.y = s.y ∧ s'.xlabel = s.xlabel ∧
         s'.ylabel = s.ylabel ∧ s'.zlabel = s.zlabel ∧
         s'.xyunit = s.xyunit ∧ s'.zunit = s.zunit ∧
         s'.wavelength = s.wavelength ∧
         s'.spatial_unit_backing = s.spatial_unit_backing) ∧
    (∀ s u r, OpticalPhase.change_phase_unit s u false = .ok r →
       ∃ p, r = .inr p) ∧
    (∀ s u s', OpticalPhase.change_spatial_unit s u true = .ok (.inl s') →
       ∃ nx ny su, s.spatial_axes u = .ok (nx, ny) ∧
         spatial_unit_assign u = .ok su ∧
         s'.x = nx ∧ s'.y = ny ∧ s'.spatial_unit_backing = some su ∧
         s'.phase = s.phase ∧ s'.xlabel = s.xlabel ∧ s'.ylabel = s.ylabel ∧
         s'.zlabel = s.zlabel ∧ s'.xyunit = s.xyunit ∧ s'.zunit = s.zunit ∧
         s'.wavelength = s.wavelength ∧
         s'.phase_unit_backing = s.phase_unit_backing) ∧
    (∀ s u r, OpticalPhase.change_spatial_unit s u false = .ok r →
       ∃ p, r = .inr p) := by
  refine ⟨?_, ?_, ?_, ?_⟩
  · intro s u s' h
    obtain ⟨fctr, pu, hpu, rfl⟩ := change_phase_unit_ok_inl h
    exact ⟨fctr, pu, hpu, rfl, rfl, rfl, rfl, rfl, rfl, rfl, rfl, rfl, rfl,
           rfl⟩
  · intro s u r h
    exact change_phase_unit_false_inr h
  · intro s u s' h
    obtain ⟨nx, ny, su, hax, hsu, rfl⟩ := change_spatial_unit_ok_inl h
    exact ⟨nx, ny, su, hax, hsu, rfl, rfl, rfl, rfl, rfl, rfl, rfl, rfl, rfl,
           rfl, rfl⟩
  · intro s u r h
    exact change_spatial_unit_false_inr h

/-- Witness for C7 at a concrete in-place call. -/
theorem C7_witness :
    ∃ fctr pu, phase_unit_assign "mm" = .ok pu ∧
      (⟨[0], [0], [[1000]], "x", "y", "z", "m", "mm", some 1, some "mm",
          none⟩ : OpticalPhase).phase =
        (⟨[0], [0], [[1]], "x", "y", "z", "m", "mm", some 1, none, none⟩ :
          OpticalPhase).phase.map (fun r => r.map (fun v => v / fctr)) ∧
      (⟨[0], [0], [[1000]], "x", "y", "z", "m", "mm", some 1, some "mm",
          none⟩ : OpticalPhase).phase_unit_backing = some pu ∧
      (⟨[0], [0], [[1000]], "x", "y", "z", "m", "mm", some 1, some "mm",
          none⟩ : OpticalPhase).x =
        (⟨[0], [0], [[1]], "x", "y", "z", "m", "mm", some 1, none, none⟩ :
          OpticalPhase).x ∧
      (⟨[0], [0], [[1000]], "x", "y", "z", "m", "mm", some 1, some "mm",
          none⟩ : OpticalPhase).y =
        (⟨[0], [0], [[1]], "x", "y", "z", "m", "mm", some 1, none, none⟩ :
          OpticalPhase).y ∧
      (⟨[0], [0], [[1000]], "x", "y", "z", "m", "mm", some 1, some "mm",
          none⟩ : OpticalPhase).xlabel = "x" ∧
      (⟨[0], [0], [[1000]], "x", "y", "z", "m", "mm", some 1, some "mm",
          none⟩ : OpticalPhase).ylabel = "y" ∧
      (⟨[0], [0], [[1000]], "x", "y", "z", "m", "mm", some 1, some "mm",
          none⟩ : OpticalPhase).zlabel = "z" ∧
      (⟨[0], [0], [[1000]], "x", "y", "z", "m", "mm", some 1, some "mm",
          none⟩ : OpticalPhase).xyunit = "m" ∧
      (⟨[0], [0], [[1000]], "x", "y", "z", "m", "mm", some 1, some "mm",
          none⟩ : OpticalPhase).zunit = "mm" ∧
      (⟨[0], [0], [[1000]], "x", "y", "z", "m", "mm", some 1, some "mm",
          none⟩ : OpticalPhase).wavelength = some 1 ∧
      (⟨[0], [0], [[1000]], "x", "y", "z", "m", "mm", some 1, some "mm",
          none⟩ : OpticalPhase).spatial_unit_backing = none :=
  C7_inplace_semantics.1
    (⟨[0], [0], [[1]], "x", "y", "z", "m", "mm", some 1, none, none⟩ :
      OpticalPhase) "mm"
    (⟨[0], [0], [[1000]], "x", "y", "z", "m", "mm", some 1, some "mm",
        none⟩ : OpticalPhase)
    (by simp [OpticalPhase.change_phase_unit, units, unit_changes, dlookup,
              phase_unit_assign, pyLower, pyLowerChar, OpticalPhase.phase_unit]
        norm_num)

/-- C8 counterexample: constructing with alias arguments stores them
verbatim in the fields the getters read, so the readable `phase_unit` is
the free-form alias `micron` (and the readable `spatial_unit` the alias
`nanometer`), neither of which is canonical. -/
theorem C8_counterexample :
    (OpticalPhase.init [0] [0] [[1]] "x" "y" "z" "micron" "nanometer"
        none).phase_unit = "micron" ∧
    (OpticalPhase.init [0] [0] [[1]] "x" "y" "z" "micron" "nanometer"
        none).spatial_unit = "nanometer" ∧
    "micron" ∉ canonical ∧ "nanometer" ∉ canonical :=
  ⟨rfl, rfl, by decide, by decide⟩

/-- C8 (amended): the normalization invariant holds at the setter level
only: every value a setter successfully stores (in `_phase_unit` /
`_spatial_unit`) is a canonical code — recognized aliases normalize before
storage, unrecognized ones are rejected — while the values readable through
the `phase_unit` / `spatial_unit` getters are the raw construction-time
strings, which may be free-form aliases. -/
theorem C8_setter_canonical (u : String) :
    (∀ c, phase_unit_assign u = .ok c → c ∈ canonical) ∧
    (∀ c, spatial_unit_assign u = .ok c → c ∈ canonical) := by
  constructor
  · intro c h
    unfold phase_unit_assign at h
    by_cases ha1 : pyLower u = "å"
    · rw [if_pos ha1, ha1] at h
      obtain rfl : pyUpper "å" = c := by simpa using h
      decide
    · rw [if_neg ha1] at h
      split at h
      next c' hc' =>
        obtain rfl : c' = c := by simpa using h
        exact units_values_canonical c' (dlookup_mem_values _ _ _ hc')
      next => simp at h
  · intro c h
    unfold spatial_unit_assign at h
    split at h
    next c' hc' =>
      obtain rfl : c' = c := by simpa using h
      exact units_values_canonical c' (dlookup_mem_values _ _ _ hc')
    next => simp at h

/-- Witness for C8: the setter maps the alias `micron` to the canonical
code `μm`. -/
theorem C8_witness : "μm" ∈ canonical :=
  (C8_setter_canonical "micron").1 "μm" rfl

/-- C5 counterexample: resolving the conversion target in
`change_phase_unit` is a raw, case-sensitive dict lookup — the upper-case
spelling of the listed alias `waves` raises a bare `KeyError`, not an
invalid-unit error with the alias list — and the `spatial_unit` setter
rejects the listed alias `Å` (its lower-casing `å` is not a table key). -/
theorem C5_counterexample :
    (⟨[0], [0], [[1]], "x", "y", "z", "nm", "mm", some 1, none, none⟩ :
        OpticalPhase).change_phase_unit "WAVES" false =
      .error (.keyError "WAVES") ∧
    spatial_unit_assign "Å" = .error (.invalidUnit "å" unitKeys) :=
  ⟨rfl, rfl⟩

/-- C5 (amended): the two setters resolve unit names case-insensitively
and totally over the alias table, with one anomaly: inputs lowering to `å`
(so the listed alias `Å` itself) are accepted by the `phase_unit` setter —
which stores `Å` without consulting the registry — but rejected by the
`spatial_unit` setter; any other unrecognized string raises an invalid-unit
error carrying the full alias list.  Target resolution inside
`change_phase_unit` is instead an exact, case-sensitive dictionary lookup
that raises a bare `KeyError` for any non-exact key. -/
theorem C5_alias_resolution (u : String) :
    (∀ c, dlookup units (pyLower u) = some c → pyLower u ≠ "å" →
       phase_unit_assign u = .ok c ∧ spatial_unit_assign u = .ok c) ∧
    (dlookup units (pyLower u) = none → pyLower u ≠ "å" →
       phase_unit_assign u = .error (.invalidUnit (pyLower u) unitKeys) ∧
       spatial_unit_assign u = .error (.invalidUnit (pyLower u) unitKeys)) ∧
    (pyLower u = "å" →
       phase_unit_assign u = .ok "Å" ∧
       spatial_unit_assign u = .error (.invalidUnit "å" unitKeys)) ∧
    (∀ s b, dlookup units u = none →
       OpticalPhase.change_phase_unit s u b = .error (.keyError u)) := by
  refine ⟨?_, ?_, ?_, ?_⟩
  · intro c hc han
    constructor
    · unfold phase_unit_assign
      rw [if_neg han, hc]
    · unfold spatial_unit_assign
      rw [hc]
  · intro hc han
    constructor
    · unfold phase_unit_assign
      rw [if_neg han, hc]
    · unfold spatial_unit_assign
      rw [hc]
  · intro han
    constructor
    · unfold phase_unit_assign
      rw [if_pos han, han]
      rfl
    · unfold spatial_unit_assign
      rw [han]
      rfl
  · intro s b hu
    unfold OpticalPhase.change_phase_unit
    rw [hu]

/-- Witness for C5: the setters resolve the upper-case spelling `WAVES`. -/
theorem C5_witness :
    phase_unit_assign "WAVES" = .ok "λ" ∧
    spatial_unit_assign "WAVES" = .ok "λ" :=
  (C5_alias_resolution "WAVES").1 "λ" rfl (by decide)

/-- C4 counterexample: the target `pixel` — whose normalization is `px` —
does not take the pixel special case: with current readable spatial unit
`mm` it raises `KeyError('mm_px')` (no such table entry), and with current
readable spatial unit `px` it divides the existing axes by the `px_px`
factor 1 instead of regenerating index sequences. -/
theorem C4_counterexample :
    (⟨[1, 2], [3, 4], [[5, 6], [7, 8]], "x", "y", "z", "mm", "mm", none,
        none, none⟩ : OpticalPhase).change_spatial_unit "pixel" false =
      .error (.keyError "mm_px") ∧
    (⟨[5], [6], [[1]], "x", "y", "z", "mm", "px", none, none, none⟩ :
        OpticalPhase).change_spatial_unit "pixel" false =
      .ok (.inr ([5], [6])) := by
  constructor
  · rfl
  · have h : (⟨[5], [6], [[1]], "x", "y", "z", "mm", "px", none, none,
        none⟩ : OpticalPhase).change_spatial_unit "pixel" false =
        .ok (.inr ([(5 : ℚ) / 1], [(6 : ℚ) / 1])) := rfl
    rw [h]
    norm_num

/-- C4 (amended): exactly the targets whose literal lower-casing is `px`
(`px` in any case, but not the alias `pixel`) skip the conversion-factor
lookup, and for them `change_spatial_unit` regenerates `x` as
`[0, 1, ..., sx-1]` and `y` as `[0, 1, ..., sy-1]` from the grid shape
`(sy, sx)`, regardless of the prior spatial unit or axis values. -/
theorem C4_px_regenerates (s : OpticalPhase) (tgt : String)
    (hpx : pyLower tgt = "px") (b : Bool) :
    OpticalPhase.change_spatial_unit s tgt b =
      if b then
        .ok (.inl { s with
          x := (List.range s.shape.2).map (fun n => (n : ℚ)),
          y := (List.range s.shape.1).map (fun n => (n : ℚ)),
          spatial_unit_backing := some "px" })
      else
        .ok (.inr ((List.range s.shape.2).map (fun n => (n : ℚ)),
                   (List.range s.shape.1).map (fun n => (n : ℚ)))) := by
  have hax : s.spatial_axes tgt =
      .ok ((List.range s.shape.2).map (fun n => (n : ℚ)),
           (List.range s.shape.1).map (fun n => (n : ℚ))) := by
    unfold OpticalPhase.spatial_axes
    rw [if_neg (by simp [hpx])]
  have hsu : spatial_unit_assign tgt = .ok "px" := by
    unfold spatial_unit_assign
    rw [hpx]
    rfl
  unfold OpticalPhase.change_spatial_unit
  rw [hax]
  cases b
  · simp
  · simp [hsu]

/-- Witness for C4: converting to target `PX` regenerates index axes. -/
theorem C4_witness :
    (⟨[9], [8, 7], [[1, 2, 3], [4, 5, 6]], "x", "y", "z", "mm", "nm", none,
        none, none⟩ : OpticalPhase).change_spatial_unit "PX" false =
      .ok (.inr ([0, 1, 2], [0, 1])) := by
  have h := C4_px_regenerates
    (⟨[9], [8, 7], [[1, 2, 3], [4, 5, 6]], "x", "y", "z", "mm", "nm", none,
        none, none⟩ : OpticalPhase) "PX" rfl false
  rw [h]
  norm_num [OpticalPhase.shape, List.range_succ]

/-- C6 counterexample: converting the phase unit *to* `λ` with wavelength
unset does not always fail: when the readable current unit is `px` (the
`px_λ` entry is the constant 1) or `λ` itself (`λ_λ` is the constant 1),
the conversion succeeds with no wavelength set. -/
theorem C6_counterexample :
    (⟨[0], [0], [[1]], "x", "y", "z", "px", "mm", none, none, none⟩ :
        OpticalPhase).change_phase_unit "waves" false = .ok (.inr [[1]]) ∧
    (⟨[0], [0], [[1]], "x", "y", "z", "λ", "mm", none, none, none⟩ :
        OpticalPhase).change_phase_unit "waves" false = .ok (.inr [[1]]) := by
  constructor
  · have h : (⟨[0], [0], [[1]], "x", "y", "z", "px", "mm", none, none,
        none⟩ : OpticalPhase).change_phase_unit "waves" false =
        .ok (.inr [[(1 : ℚ) / 1]]) := rfl
    rw [h]
    norm_num
  · have h : (⟨[0], [0], [[1]], "x", "y", "z", "λ", "mm", none, none,
        none⟩ : OpticalPhase).change_phase_unit "waves" false =
        .ok (.inr [[(1 : ℚ) / 1]]) := rfl
    rw [h]
    norm_num

/-- C6 (amended): converting the phase unit between `λ` and a physical
unit (m, mm, μm, nm, Å), in either direction, with `wavelength = None`,
fails with a `TypeError` (arithmetic on a missing value), not a named
validation error — whereas `λ → λ` and `px → λ` use constant factors and
succeed without a wavelength; table entries not involving `λ` ignore the
wavelength entirely; and with a wavelength set, converting from `μm` to
waves divides the phase by the wavelength (the `μm_λ` factor is the
identity of the wavelength, used as divisor). -/
theorem C6_waves_needs_wavelength :
    (∀ A ∈ (["m", "mm", "μm", "nm", "Å"] : List String),
       ∀ (s : OpticalPhase) (b : Bool), s.phase_unit = A →
         s.wavelength = none →
         s.change_phase_unit "waves" b = .error .typeError) ∧
    (∀ B ∈ (["m", "mm", "μm", "nm", "Å"] : List String),
       ∀ (s : OpticalPhase) (b : Bool), s.phase_unit = "λ" →
         s.wavelength = none →
         s.change_phase_unit B b = .error .typeError) ∧
    (∀ p ∈ noLambdaPairs, ∀ w w' : Option ℚ,
       factor p.1 p.2 w = factor p.1 p.2 w') ∧
    (∀ (s : OpticalPhase) (w : ℚ), s.phase_unit = "μm" →
       s.wavelength = some w →
       s.change_phase_unit "waves" false =
         .ok (.inr (s.phase.map (fun r => r.map (fun v => v / w))))) := by
  refine ⟨?_, ?_, ?_, ?_⟩
  · intro A hA s b hu hw
    fin_cases hA <;>
      simp [OpticalPhase.change_phase_unit, units, unit_changes, dlookup,
            hu, hw]
  · intro B hB s b hu hw
    fin_cases hB <;>
      simp [OpticalPhase.change_phase_unit, units, unit_changes, dlookup,
            hu, hw]
  · intro p hp w w'
    fin_cases hp <;> rfl
  · intro s w hu hw
    simp [OpticalPhase.change_phase_unit, units, unit_changes, dlookup,
          hu, hw]

/-- Witness for C6 at a concrete wavelength-less conversion to waves. -/
theorem C6_witness :
    (⟨[0], [0], [[1]], "x", "y", "z", "nm", "mm", none, none, none⟩ :
        OpticalPhase).change_phase_unit "waves" false = .error .typeError :=
  C6_waves_needs_wavelength.1 "nm" (by decide)
    (⟨[0], [0], [[1]], "x", "y", "z", "nm", "mm", none, none, none⟩ :
      OpticalPhase) false rfl rfl

/-- C2 counterexample: the conversion table has no `m_px` entry (so it is
not total over the 49 ordered pairs of canonical codes), and the symmetry
`factor(A,B,w) = 1/factor(B,A,w)` fails for the pair `(μm, λ)` at
wavelength 2: both directional factors evaluate to 2, but 2 ≠ 1/2. -/
theorem C2_counterexample :
    dlookup unit_changes "m_px" = none ∧
    factor "μm" "λ" (some 2) = some 2 ∧
    factor "λ" "μm" (some 2) = some 2 ∧
    ¬((2 : ℚ) = 1 / 2) := by
  refine ⟨rfl, ?_, rfl, by norm_num⟩
  show some ((1 : ℚ) * 2) = some 2
  norm_num

/-- C2 (amended): the table defines an entry for an ordered pair `(A, B)`
of canonical codes exactly when `A = px` or `B ≠ px` (43 of the 49 ordered
pairs: the six entries converting a non-pixel unit to `px` are absent);
and whenever both directional entries exist, `factor(A,B,w) ⋅
factor(B,A,w) = 1` for every wavelength `w > 0` — except the pair
`(μm, λ)`, whose `λ_μm` entry is the wavelength itself rather than its
reciprocal. -/
theorem C2_table_shape (a b : String) (ha : a ∈ canonical)
    (hb : b ∈ canonical) :
    ((dlookup unit_changes (a ++ "_" ++ b)).isSome ↔
      (a = "px" ∨ b ≠ "px")) ∧
    (∀ w : ℚ, 0 < w → ∀ fab fba : ℚ,
      factor a b (some w) = some fab → factor b a (some w) = some fba →
      ¬(a = "μm" ∧ b = "λ") → ¬(a = "λ" ∧ b = "μm") →
      fab * fba = 1) := by
  fin_cases ha <;> fin_cases hb <;>
    (refine ⟨by decide, ?_⟩
     intro w hw fab fba hfab hfba h1 h2
     have hw' : w ≠ 0 := ne_of_gt hw
     first
     | (exfalso; apply h1 ⟨rfl, rfl⟩)
     | (exfalso; apply h2 ⟨rfl, rfl⟩)
     | (simp [factor, unit_changes, dlookup] at hfab hfba
        try subst hfab
        try subst hfba
        try field_simp
        try ring_nf
        try norm_num))

/-- Witness for C2 at the pair `(m, mm)` and wavelength 1. -/
theorem C2_witness : (1e-3 : ℚ) * 1e3 = 1 :=
  (C2_table_shape "m" "mm" (by decide) (by decide)).2 1 one_pos 1e-3 1e3
    rfl rfl (by decide) (by decide)

/-- C3: evaluation of the code at the failing input.  An entity whose
readable `phase_unit` is `m`, with `phase = [[1]]` and wavelength 1, is
converted in place to `mm` and then back to `m`; the final phase is
`[[1000]]`, not the original `[[1]]`.  The first call divides by the
`m_mm` factor `1e-3`, but the unit label the getter reads (`xyunit`) is
never updated (the setter writes the dead field `_phase_unit`), so the
second call looks up `m_m` and divides by 1 instead of multiplying back. -/
theorem C3_roundtrip_failure :
    (⟨[0], [0], [[1]], "x", "y", "z", "m", "mm", some 1, none, none⟩ :
        OpticalPhase).change_phase_unit "mm" true =
      .ok (.inl (⟨[0], [0], [[1000]], "x", "y", "z", "m", "mm", some 1,
        some "mm", none⟩ : OpticalPhase)) ∧
    (⟨[0], [0], [[1000]], "x", "y", "z", "m", "mm", some 1, some "mm",
        none⟩ : OpticalPhase).change_phase_unit "m" true =
      .ok (.inl (⟨[0], [0], [[1000]], "x", "y", "z", "m", "mm", some 1,
        some "m", none⟩ : OpticalPhase)) ∧
    [[(1000 : ℚ)]] ≠ [[1]] := by
  refine ⟨?_, ?_, by norm_num⟩
  · simp [OpticalPhase.change_phase_unit, units, unit_changes, dlookup,
          phase_unit_assign, pyLower, pyLowerChar, OpticalPhase.phase_unit]
    norm_num
  · simp [OpticalPhase.change_phase_unit, units, unit_changes, dlookup,
          phase_unit_assign, pyLower, pyLowerChar, OpticalPhase.phase_unit]

end Prysm
